import Mathlib

/-!
Shallow embedding of the identity pipeline of src/face_detection.py.

The embedded parts are: the spatiotemporal deduplication gate and the
saved_faces list of the detection loop, the camera error handling of the
detection loop together with stop_detection, the bounded display frame
queue (producer and consumer sides), the identity matcher of the
detection loop, and process_unknown_faces / add_new_person.

External OpenCV primitives (cv2.cvtColor, cv2.resize, cv2.matchTemplate)
are not code of this repository; where a claim's logic merely routes
values through them they are taken as function parameters, and for the
similarity-scorer claim the normalized cross-correlation the spec
specifies for cv2.matchTemplate(TM_CCOEFF_NORMED) at zero displacement
is written out explicitly.
-/

namespace FaceDet

/-- An image as the embedding sees it: height, width and an opaque pixel
payload. Pixel values only flow through the externally supplied OpenCV
primitives, which are parameters of the definitions below. -/
structure Img where
  h : Nat
  w : Nat
  data : List Nat
deriving DecidableEq

/-! ## Spatiotemporal deduplicator (detection_loop lines 855-866, 979-996, 1007) -/

/-- One recorded sighting: the (center_x, center_y, current_time) triple that
is appended to saved_faces when a detection passes the dedup gate. -/
structure Sighting where
  sx : Int
  sy : Int
  st : Rat
deriving DecidableEq

/-- Squared Euclidean distance between a detection center and a sighting.
The source compares the square root of this sum against
DISTANCE_THRESHOLD = 50; since both sides are nonnegative this is
equivalent to comparing the sum against 50^2 = 2500, which is how the
comparison is encoded here. -/
def sq_dist (cx cy : Int) (s : Sighting) : Int :=
  (cx - s.sx) ^ 2 + (cy - s.sy) ^ 2

/-- The per-sighting test of lines 862-864: distance below
DISTANCE_THRESHOLD and age below SAVE_INTERVAL. -/
def suppressed_by (cx cy : Int) (now SI : Rat) (s : Sighting) : Bool :=
  decide (sq_dist cx cy s < 2500) && decide (now - s.st < SI)

/-- The save_face computation of lines 858-866: scan saved_faces and
suppress the detection if any recorded sighting is both close and recent. -/
def dedup_suppress (saved : List Sighting) (cx cy : Int) (now SI : Rat) : Bool :=
  saved.any (suppressed_by cx cy now SI)

/-- Processing of one detection against the current saved_faces list: a
suppressed detection changes nothing; an accepted one is appended to
saved_faces (lines 982 and 996) and, for bookkeeping, to the log of all
accepted sightings. -/
def dedup_step (SI now : Rat) (acc : List Sighting × List Sighting) (c : Int × Int) :
    List Sighting × List Sighting :=
  if dedup_suppress acc.1 c.1 c.2 now SI then acc
  else (acc.1 ++ [⟨c.1, c.2, now⟩], acc.2 ++ [⟨c.1, c.2, now⟩])

/-- End-of-frame cleanup of line 1007: keep only sightings younger than
SAVE_INTERVAL. -/
def prune_saved (now SI : Rat) (saved : List Sighting) : List Sighting :=
  saved.filter (fun s => decide (now - s.st < SI))

/-- One camera frame as the dedup gate sees it: the current_time stamp
shared by all detections of the frame, and the scaled face centers. -/
structure DetFrame where
  time : Rat
  dets : List (Int × Int)

/-- All detections of one frame, processed in order against the evolving
saved_faces list. -/
def process_dets (SI now : Rat) (acc : List Sighting × List Sighting)
    (dets : List (Int × Int)) : List Sighting × List Sighting :=
  dets.foldl (dedup_step SI now) acc

/-- One frame of the detection loop from the deduplicator's point of view:
process every detection, then prune saved_faces. -/
def process_frame (SI : Rat) (acc : List Sighting × List Sighting) (fr : DetFrame) :
    List Sighting × List Sighting :=
  let r := process_dets SI fr.time acc fr.dets
  (prune_saved fr.time SI r.1, r.2)

/-- A whole run of the deduplicator from an empty saved_faces list; the
second component collects every sighting that was ever accepted. -/
def run_dedup (SI : Rat) (frames : List DetFrame) : List Sighting × List Sighting :=
  frames.foldl (process_frame SI) ([], [])

/-- Target relation for the dedup invariant: of two accepted sightings, in
acceptance order, either the centers are at least DISTANCE_THRESHOLD
apart (squared distance at least 2500) or the timestamps are at least
SAVE_INTERVAL apart. -/
def dedup_ok (SI : Rat) (s1 s2 : Sighting) : Prop :=
  (s2.sx - s1.sx) ^ 2 + (s2.sy - s1.sy) ^ 2 < 2500 → SI ≤ s2.st - s1.st

/-- Induction invariant for the dedup run: the accepted log satisfies
dedup_ok pairwise, every accepted sighting is no younger than the clock,
and every accepted sighting is either still recorded in saved_faces or
already at least SAVE_INTERVAL old. -/
def DedupInv (SI t : Rat) (acc : List Sighting × List Sighting) : Prop :=
  acc.2.Pairwise (dedup_ok SI)
  ∧ (∀ s ∈ acc.2, s.st ≤ t)
  ∧ (∀ s ∈ acc.2, s ∈ acc.1 ∨ SI ≤ t - s.st)

/-! ## Capture session error handling (detection_loop lines 766-808, stop_detection lines 608-621) -/

/-- Capture session state: the running flag, whether the camera handle is
open, and camera_error_count. -/
structure LoopState where
  running : Bool
  capOpen : Bool
  errCount : Nat
deriving DecidableEq

/-- stop_detection: clears the running flag and releases the camera. The
GUI-widget updates of lines 610-617 have no bearing on the session state. -/
def stop_detection (s : LoopState) : LoopState :=
  { s with running := false, capOpen := false }

/-- Outcomes of the external camera operations one loop iteration may
attempt: the reconnect when the handle is closed (line 771), the frame
read (line 789), and the re-open after a failed read (line 798). -/
structure IterIn where
  reconnectOk : Bool
  readOk : Bool
  reopenOk : Bool
deriving DecidableEq

/-- Lines 789-808: read one frame. On success camera_error_count resets to
0; on failure it is bumped, the session stops once it exceeds maxErr,
and otherwise the camera is released and re-opened (a successful re-open
also resets the count to 0, line 804). -/
def read_phase (maxErr : Nat) (s : LoopState) (i : IterIn) : LoopState :=
  if i.readOk then { s with errCount := 0 }
  else if maxErr < s.errCount + 1 then stop_detection { s with errCount := s.errCount + 1 }
  else if i.reopenOk then { s with capOpen := true, errCount := 0 }
  else { s with capOpen := false, errCount := s.errCount + 1 }

/-- One iteration of the while-running loop, lines 766-808: nothing happens
when the loop is not running; when the camera is closed a reconnect is
attempted first (a failure bumps the error count and skips the read, a
success resets the count and falls through to the read). -/
def loop_iter (maxErr : Nat) (s : LoopState) (i : IterIn) : LoopState :=
  if s.running then
    if s.capOpen then read_phase maxErr s i
    else if i.reconnectOk then read_phase maxErr { s with capOpen := true, errCount := 0 } i
    else if maxErr < s.errCount + 1 then stop_detection { s with errCount := s.errCount + 1 }
    else { s with errCount := s.errCount + 1 }
  else s

/-- A run of the detection loop over a sequence of camera outcomes. -/
def run_loop (maxErr : Nat) (s : LoopState) (l : List IterIn) : LoopState :=
  l.foldl (loop_iter maxErr) s

/-! ## Display frame queue (init line 113, producer lines 1011-1012, consumer lines 1144-1145) -/

/-- Producer side of the display queue: frame_queue is a deque created with
maxlen 5, but the append at line 1012 is guarded by the length check of
line 1011, so a full queue is left untouched. The list front is the
oldest (popleft) end; append adds at the back. -/
def frame_queue_push (maxlen : Nat) (q : List Nat) (f : Nat) : List Nat :=
  if q.length < maxlen then q ++ [f] else q

/-- Consumer side, update_gui lines 1144-1145: if the queue is nonempty,
popleft one frame and render it. Returns the rendered frame (if any) and
the remaining queue. -/
def update_gui_poll (q : List Nat) : Option Nat × List Nat :=
  match q with
  | [] => (none, [])
  | f :: rest => (some f, rest)

/-- The sequence of frames rendered by n consecutive GUI ticks. -/
def drain_frames : Nat → List Nat → List Nat
  | 0, _ => []
  | n + 1, q =>
    match update_gui_poll q with
    | (none, _) => []
    | (some f, rest) => f :: drain_frames n rest

/-! ## Identity matcher (detection_loop lines 884-904) -/

/-- One step of the gallery scan of lines 895-901: keep the better of the
running best (score, name) pair and the current gallery entry, updating
only on a strictly larger score. -/
def match_step (score : Img → Img → Rat) (crop : Img) (b : Rat × String)
    (p : Img × String) : Rat × String :=
  if score crop p.1 > b.1 then (score crop p.1, p.2) else b

/-- The gallery scan of lines 892-901, starting from
(best_match_score, best_match_name) = (0, Unknown). The gallery is the
zip of the parallel lists known_faces and known_face_names. -/
def best_match (score : Img → Img → Rat) (crop : Img)
    (gallery : List (Img × String)) : Rat × String :=
  gallery.foldl (match_step score crop) ((0 : Rat), "Unknown")

/-- The recognition step of lines 884-904: name starts as Unknown; the
gallery is scanned only when both box dimensions reach
MIN_RECOGNITION_SIZE = 100 and the gallery is nonempty, and the best
name is adopted only when its score strictly exceeds the threshold. -/
def recognize_face (score : Img → Img → Rat) (w h : Nat) (known_faces : List Img)
    (known_face_names : List String) (crop : Img) (thr : Rat) : String :=
  if 100 ≤ w ∧ 100 ≤ h ∧ known_faces ≠ [] then
    if (best_match score crop (known_faces.zip known_face_names)).1 > thr then
      (best_match score crop (known_faces.zip known_face_names)).2
    else "Unknown"
  else "Unknown"

/-! ## Unknown-face enrollment (process_unknown_faces lines 1067-1104, add_new_person lines 1106-1117) -/

/-- In-memory identity state: unknown_faces_buffer, known_faces,
known_face_names and next_person_id. -/
structure AppState where
  buffer : List Img
  known_faces : List Img
  known_face_names : List String
  next_person_id : Nat
deriving DecidableEq

/-- The hard-coded clustering threshold 0.65 of line 1081, written as the
rational 65/100. -/
def cluster_threshold : Rat := mkRat 65 100

/-- Inner loop of the grouping pass, lines 1076-1087: scan the groups in
order and join the first whose first member scores above 0.65 against
the new crop (the new member is appended at the back of the group);
otherwise open a new singleton group at the end of the group list. -/
def insert_face (score : Img → Img → Rat) (g : Img) : List (List Img) → List (List Img)
  | [] => [[g]]
  | grp :: rest =>
    if score g (grp.headD ⟨0, 0, []⟩) > cluster_threshold then (grp ++ [g]) :: rest
    else grp :: insert_face score g rest

/-- Lines 1091-1099: pick the group member with the largest h*w pixel area,
with a strict comparison starting from best_size = 0 (so earlier members
win ties). The default pair models the initial best_face = None. -/
def select_best (grp : List Img) : Img :=
  (grp.foldl
    (fun acc f => if acc.1 < f.h * f.w then (f.h * f.w, f) else acc)
    (0, (⟨0, 0, []⟩ : Img))).2

/-- add_new_person, lines 1106-1117: mint Person_<next_person_id>, bump the
counter, and append the 80x80 grayscale template of the given (BGR) face
image to the gallery. The on-disk imwrite of line 1112 is external I/O
and does not affect the in-memory state. -/
def add_new_person (toGray resize80 : Img → Img) (st : AppState) (face_img : Img) :
    AppState :=
  { st with
    next_person_id := st.next_person_id + 1,
    known_faces := st.known_faces ++ [resize80 (toGray face_img)],
    known_face_names :=
      st.known_face_names ++ [String.append "Person_" (toString st.next_person_id)] }

/-- process_unknown_faces, lines 1067-1104: return unchanged while the
buffer holds fewer than BUFFER_SIZE = 3 crops; otherwise normalize every
buffered crop (BGR to gray, then resize to 80x80), group them greedily
with insert_face, enroll the select_best member of every group of size
at least 2 (converted back to BGR first, line 1101), and clear the
buffer unconditionally. -/
def process_unknown_faces (toGray toBGR resize80 : Img → Img)
    (score : Img → Img → Rat) (st : AppState) : AppState :=
  if st.buffer.length < 3 then st
  else
    let norms := st.buffer.map (fun f => resize80 (toGray f))
    let groups := norms.foldl (fun gs g => insert_face score g gs) []
    let st1 := groups.foldl
      (fun s grp =>
        if 2 ≤ grp.length then add_new_person toGray resize80 s (toBGR (select_best grp))
        else s)
      st
    { st1 with buffer := [] }

/-! ## Similarity scorer (lines 895-897 and 1078-1079) -/

/-- Mean pixel value of a flattened grayscale image. -/
def pix_mean (a : List Rat) : Rat := a.sum / (a.length : Rat)

/-- Modelled from the spec: numerator of the zero-displacement
TM_CCOEFF_NORMED coefficient, the correlation of the two mean-subtracted
images. The source delegates this computation to the external
cv2.matchTemplate. -/
def ncc_num (a b : List Rat) : Rat :=
  ((a.zip b).map (fun p => (p.1 - pix_mean a) * (p.2 - pix_mean b))).sum

/-- Modelled from the spec: one image's normalization term, the sum of its
squared deviations from the mean. -/
def ncc_den (a : List Rat) : Rat :=
  (a.map (fun x => (x - pix_mean a) ^ 2)).sum

/-- Modelled from the spec: the similarity score of section 4.2, the
normalized cross-correlation of the two resize-normalized crops
(cv2.matchTemplate with TM_CCOEFF_NORMED at its single zero
displacement): numerator over the geometric mean of the two
normalization terms. -/
noncomputable def ncc_score (resize : List Rat → List Rat) (a b : List Rat) : ℝ :=
  ((ncc_num (resize a) (resize b) : Rat) : ℝ) /
    Real.sqrt (((ncc_den (resize a) : Rat) : ℝ) * ((ncc_den (resize b) : Rat) : ℝ))

/-! ## Concrete instantiations of the external OpenCV parameters used by
the enrollment evaluation -/

/-- A resize to 80x80 that keeps the pixel payload as a tag: enough to
record that cv2.resize always returns an 80x80 image. -/
def c2_resize (i : Img) : Img := ⟨80, 80, i.data⟩

/-- Color conversions that keep the payload (BGR2GRAY after GRAY2BGR is the
identity on gray content). -/
def c2_gray (i : Img) : Img := i

/-- A similarity in which the crops tagged 1 and 2 match each other above
0.65 in both directions and the crop tagged 3 matches nothing else. -/
def c2_score (x y : Img) : Rat :=
  if (x.data = [1] ∧ y.data = [2]) ∨ (x.data = [2] ∧ y.data = [1]) ∨ x.data = y.data
  then mkRat 9 10 else mkRat 1 10

/-- The smaller (50x50) member of the matching pair, buffered first. -/
def c2_cropA : Img := ⟨50, 50, [1]⟩

/-- The larger (100x100) member of the matching pair, buffered second. -/
def c2_cropB : Img := ⟨100, 100, [2]⟩

/-- The distinct third crop. -/
def c2_cropC : Img := ⟨60, 60, [3]⟩

/-! ## Helper lemmas -/

lemma drain_frames_all : ∀ (q : List Nat) (n : Nat), q.length ≤ n → drain_frames n q = q := by
  intro q
  induction q with
  | nil => intro n _; cases n <;> rfl
  | cons x xs ih =>
    intro n hn
    cases n with
    | zero => exact absurd hn (by simp)
    | succ m =>
      have hstep : drain_frames (m + 1) (x :: xs) = x :: drain_frames m xs := rfl
      rw [hstep, ih m (by simpa using hn)]

lemma loop_iter_not_running (maxErr : Nat) (s : LoopState) (i : IterIn)
    (hs : s.running = false) : loop_iter maxErr s i = s := by
  unfold loop_iter
  rw [hs]
  simp

lemma run_loop_stopped (maxErr : Nat) (s : LoopState) (hs : s.running = false) :
    ∀ l, run_loop maxErr s l = s := by
  intro l
  induction l with
  | nil => rfl
  | cons i rest ih =>
    show run_loop maxErr (loop_iter maxErr s i) rest = s
    rw [loop_iter_not_running maxErr s i hs]
    exact ih

lemma loop_iter_read_fail_reopen_ok (s : LoopState) (i : IterIn)
    (hr : s.running = true) (hc : s.capOpen = true) (he : s.errCount < 5)
    (hread : i.readOk = false) (hro : i.reopenOk = true) :
    loop_iter 5 s i = ⟨true, true, 0⟩ := by
  cases s with
  | mk sr sc se =>
    have he2 : se < 5 := he
    cases hr
    cases hc
    unfold loop_iter read_phase
    simp only [if_true, hread, hro, Bool.false_eq_true, if_false]
    rw [if_neg (by omega : ¬ 5 < se + 1)]

lemma run_loop_good_inputs :
    ∀ (l : List IterIn), (∀ i ∈ l, i.readOk = false → i.reopenOk = true) →
      run_loop 5 ⟨true, true, 0⟩ l = ⟨true, true, 0⟩ := by
  intro l
  induction l with
  | nil => intro _; rfl
  | cons i rest ih =>
    intro hg
    have hstep : loop_iter 5 ⟨true, true, 0⟩ i = ⟨true, true, 0⟩ := by
      cases hread : i.readOk with
      | true =>
        unfold loop_iter read_phase
        simp [hread]
      | false =>
        exact loop_iter_read_fail_reopen_ok ⟨true, true, 0⟩ i rfl rfl (by decide) hread
          (hg i (List.mem_cons_self i rest) hread)
    show run_loop 5 (loop_iter 5 ⟨true, true, 0⟩ i) rest = _
    rw [hstep]
    exact ih (fun j hj => hg j (List.mem_cons_of_mem i hj))

lemma dedup_suppress_false (saved : List Sighting) (cx cy : Int) (now SI : Rat)
    (h : dedup_suppress saved cx cy now SI = false) :
    ∀ s ∈ saved, sq_dist cx cy s < 2500 → SI ≤ now - s.st := by
  intro s hs hd
  have h2 := List.any_eq_false.mp h s hs
  simp only [suppressed_by, Bool.and_eq_true, decide_eq_true_eq, not_and, not_lt] at h2
  exact h2 hd

lemma dedup_step_inv (SI now : Rat) (acc : List Sighting × List Sighting) (c : Int × Int)
    (hinv : DedupInv SI now acc) : DedupInv SI now (dedup_step SI now acc c) := by
  obtain ⟨hpw, hle, hmem⟩ := hinv
  unfold dedup_step
  cases hsup : dedup_suppress acc.1 c.1 c.2 now SI with
  | true =>
    rw [if_pos rfl]
    exact ⟨hpw, hle, hmem⟩
  | false =>
    rw [if_neg Bool.false_ne_true]
    have hsf := dedup_suppress_false acc.1 c.1 c.2 now SI hsup
    refine ⟨?_, ?_, ?_⟩
    · rw [List.pairwise_append]
      refine ⟨hpw, List.pairwise_singleton _ _, ?_⟩
      intro s hsmem y hy
      rw [List.mem_singleton] at hy
      subst hy
      intro hdist
      rcases hmem s hsmem with hin | hold
      · exact hsf s hin hdist
      · exact hold
    · intro s hsmem
      rcases List.mem_append.mp hsmem with hold | hnew
      · exact hle s hold
      · rw [List.mem_singleton] at hnew
        subst hnew
        exact le_refl now
    · intro s hsmem
      rcases List.mem_append.mp hsmem with hold | hnew
      · rcases hmem s hold with hin | hage
        · exact Or.inl (List.mem_append_left _ hin)
        · exact Or.inr hage
      · rw [List.mem_singleton] at hnew
        subst hnew
        exact Or.inl (List.mem_append_right _ (List.mem_singleton.mpr rfl))

lemma process_dets_inv (SI now : Rat) :
    ∀ (dets : List (Int × Int)) (acc : List Sighting × List Sighting),
      DedupInv SI now acc → DedupInv SI now (process_dets SI now acc dets) := by
  intro dets
  induction dets with
  | nil =>
    intro acc hinv
    exact hinv
  | cons c rest ih =>
    intro acc hinv
    exact ih (dedup_step SI now acc c) (dedup_step_inv SI now acc c hinv)

lemma prune_inv (SI now : Rat) (acc : List Sighting × List Sighting)
    (hinv : DedupInv SI now acc) :
    DedupInv SI now (prune_saved now SI acc.1, acc.2) := by
  obtain ⟨hpw, hle, hmem⟩ := hinv
  refine ⟨hpw, hle, ?_⟩
  intro s hs
  rcases hmem s hs with hin | hage
  · by_cases hr : now - s.st < SI
    · refine Or.inl ?_
      unfold prune_saved
      rw [List.mem_filter]
      exact ⟨hin, decide_eq_true hr⟩
    · exact Or.inr (not_lt.mp hr)
  · exact Or.inr hage

lemma dedup_inv_mono (SI t t2 : Rat) (hle : t ≤ t2) (acc : List Sighting × List Sighting)
    (hinv : DedupInv SI t acc) : DedupInv SI t2 acc := by
  obtain ⟨hpw, hst, hmem⟩ := hinv
  refine ⟨hpw, fun s hs => le_trans (hst s hs) hle, fun s hs => ?_⟩
  rcases hmem s hs with hin | hage
  · exact Or.inl hin
  · exact Or.inr (le_trans hage (sub_le_sub_right hle s.st))

lemma process_frame_inv (SI : Rat) (fr : DetFrame) (acc : List Sighting × List Sighting)
    (t : Rat) (hle : t ≤ fr.time) (hinv : DedupInv SI t acc) :
    DedupInv SI fr.time (process_frame SI acc fr) := by
  have h1 := dedup_inv_mono SI t fr.time hle acc hinv
  have h2 := process_dets_inv SI fr.time fr.dets acc h1
  exact prune_inv SI fr.time (process_dets SI fr.time acc fr.dets) h2

lemma run_fold_inv (SI : Rat) :
    ∀ (frames : List DetFrame) (acc : List Sighting × List Sighting) (t : Rat),
      DedupInv SI t acc → (∀ fr ∈ frames, t ≤ fr.time) →
      (frames.map DetFrame.time).Pairwise (fun x y => x ≤ y) →
      ∃ t2, DedupInv SI t2 (frames.foldl (process_frame SI) acc) := by
  intro frames
  induction frames with
  | nil =>
    intro acc t hinv _ _
    exact ⟨t, hinv⟩
  | cons fr rest ih =>
    intro acc t hinv hall hsort
    rw [List.map_cons] at hsort
    have hsc := List.pairwise_cons.mp hsort
    have hle : t ≤ fr.time := hall fr (List.mem_cons_self fr rest)
    have h2 := process_frame_inv SI fr acc t hle hinv
    exact ih (process_frame SI acc fr) fr.time h2
      (fun fr2 hfr2 => hsc.1 fr2.time (List.mem_map_of_mem DetFrame.time hfr2)) hsc.2

lemma match_step_fst (score : Img → Img → Rat) (crop : Img) (b : Rat × String)
    (p : Img × String) :
    (match_step score crop b p).1 = max b.1 (score crop p.1) := by
  unfold match_step
  by_cases hc : score crop p.1 > b.1
  · rw [if_pos hc]
    exact (max_eq_right (le_of_lt hc)).symm
  · rw [if_neg hc]
    exact (max_eq_left (not_lt.mp hc)).symm

lemma best_fold_fst_lt_iff (score : Img → Img → Rat) (crop : Img) (t : Rat) :
    ∀ (l : List (Img × String)) (b : Rat × String),
      t < (l.foldl (match_step score crop) b).1
        ↔ t < b.1 ∨ ∃ p ∈ l, t < score crop p.1 := by
  intro l
  induction l with
  | nil =>
    intro b
    simp
  | cons p rest ih =>
    intro b
    rw [List.foldl_cons, ih (match_step score crop b p)]
    constructor
    · rintro (hstep | ⟨q, hq, hlt⟩)
      · rw [match_step_fst] at hstep
        rcases lt_max_iff.mp hstep with h | h
        · exact Or.inl h
        · exact Or.inr ⟨p, List.mem_cons_self p rest, h⟩
      · exact Or.inr ⟨q, List.mem_cons_of_mem p hq, hlt⟩
    · rintro (hb | ⟨q, hq, hlt⟩)
      · exact Or.inl (by rw [match_step_fst]; exact lt_max_iff.mpr (Or.inl hb))
      · rcases List.mem_cons.mp hq with rfl | hq2
        · exact Or.inl (by rw [match_step_fst]; exact lt_max_iff.mpr (Or.inr hlt))
        · exact Or.inr ⟨q, hq2, hlt⟩

lemma best_fold_result (score : Img → Img → Rat) (crop : Img) :
    ∀ (l : List (Img × String)) (b : Rat × String),
      l.foldl (match_step score crop) b = b
      ∨ (l.foldl (match_step score crop) b).2 ∈ l.map Prod.snd := by
  intro l
  induction l with
  | nil =>
    intro b
    exact Or.inl rfl
  | cons p rest ih =>
    intro b
    rw [List.foldl_cons]
    rcases ih (match_step score crop b p) with heq | hmem
    · rw [heq]
      unfold match_step
      by_cases hc : score crop p.1 > b.1
      · rw [if_pos hc]
        exact Or.inr (by simp)
      · rw [if_neg hc]
        exact Or.inl rfl
    · rw [List.map_cons]
      exact Or.inr (List.mem_cons_of_mem p.2 hmem)

lemma zip_map_mul_comm (ma mb : Rat) :
    ∀ (a b : List Rat),
      ((a.zip b).map (fun p => (p.1 - ma) * (p.2 - mb))).sum
        = ((b.zip a).map (fun p => (p.1 - mb) * (p.2 - ma))).sum := by
  intro a
  induction a with
  | nil =>
    intro b
    cases b <;> simp
  | cons x xs ih =>
    intro b
    cases b with
    | nil => simp
    | cons y ys =>
      simp only [List.zip_cons_cons, List.map_cons, List.sum_cons, ih ys]
      ring

lemma zip_self_sq (m : Rat) :
    ∀ (l : List Rat),
      ((l.zip l).map (fun p => (p.1 - m) * (p.2 - m))).sum
        = (l.map (fun x => (x - m) ^ 2)).sum := by
  intro l
  induction l with
  | nil => simp
  | cons x xs ih =>
    simp only [List.zip_cons_cons, List.map_cons, List.sum_cons, ih]
    ring

lemma ncc_num_comm (a b : List Rat) : ncc_num a b = ncc_num b a := by
  unfold ncc_num
  exact zip_map_mul_comm (pix_mean a) (pix_mean b) a b

lemma ncc_num_self (a : List Rat) : ncc_num a a = ncc_den a := by
  unfold ncc_num ncc_den
  exact zip_self_sq (pix_mean a) a

lemma ncc_den_nonneg (a : List Rat) : 0 ≤ ncc_den a := by
  unfold ncc_den
  apply List.sum_nonneg
  intro x hx
  obtain ⟨y, hy, rfl⟩ := List.mem_map.mp hx
  exact sq_nonneg _

lemma two_pixel_ncc_den_ne_zero (x y : Rat) (hxy : x ≠ y) : ncc_den [x, y] ≠ 0 := by
  have hval : ncc_den [x, y] = (x - y) ^ 2 / 2 := by
    unfold ncc_den pix_mean
    simp only [List.map_cons, List.map_nil, List.sum_cons, List.sum_nil,
      List.length_cons, List.length_nil]
    push_cast
    ring
  rw [hval]
  exact div_ne_zero (pow_ne_zero 2 (sub_ne_zero.mpr hxy)) two_ne_zero

/-! ## Claim theorems -/

/-- C1: over any run of the deduplication gate with nondecreasing frame
timestamps, the accepted sightings satisfy, pairwise in acceptance
order, that centers strictly within DISTANCE_THRESHOLD = 50 px (squared
distance below 2500) are at least SAVE_INTERVAL apart in time; moreover
a detection is accepted exactly when no currently recorded sighting is
both closer than the distance threshold and younger than SAVE_INTERVAL,
and every accepted detection is recorded as a new sighting appended to
saved_faces. -/
theorem c1_dedup_window_invariant (SI : Rat) (frames : List DetFrame)
    (hmono : (frames.map DetFrame.time).Pairwise (fun x y => x ≤ y)) :
    (run_dedup SI frames).2.Pairwise (dedup_ok SI)
    ∧ (∀ (saved log : List Sighting) (c : Int × Int) (now : Rat),
        dedup_suppress saved c.1 c.2 now SI = false →
        dedup_step SI now (saved, log) c
          = (saved ++ [⟨c.1, c.2, now⟩], log ++ [⟨c.1, c.2, now⟩]))
    ∧ (∀ (saved log : List Sighting) (c : Int × Int) (now : Rat),
        dedup_suppress saved c.1 c.2 now SI = true →
        dedup_step SI now (saved, log) c = (saved, log)) := by
  refine ⟨?_, ?_, ?_⟩
  · cases frames with
    | nil => exact List.Pairwise.nil
    | cons fr rest =>
      have hall : ∀ fr2 ∈ fr :: rest, fr.time ≤ fr2.time := by
        intro fr2 h2
        rcases List.mem_cons.mp h2 with rfl | hmem2
        · exact le_refl _
        · have hm2 := hmono
          rw [List.map_cons] at hm2
          exact (List.pairwise_cons.mp hm2).1 fr2.time
            (List.mem_map_of_mem DetFrame.time hmem2)
      have hinit : DedupInv SI fr.time ([], []) := by
        refine ⟨List.Pairwise.nil, ?_, ?_⟩ <;>
          exact fun s hs => absurd hs (List.not_mem_nil s)
      obtain ⟨t2, hinv⟩ :=
        run_fold_inv SI (fr :: rest) ([], []) fr.time hinit hall hmono
      exact hinv.1
  · intro saved log c now hs
    unfold dedup_step
    rw [if_neg (by rw [hs]; exact Bool.false_ne_true)]
  · intro saved log c now hs
    unfold dedup_step
    rw [if_pos hs]

/-- Witness for C1 at a concrete two-frame run: a second face 10 px away
in the same frame and a third 5 px away one second later are both
suppressed, and the accepted log satisfies the window relation. -/
theorem c1_dedup_window_invariant_witness :
    (run_dedup 3 [⟨0, [(0, 0), (10, 0)]⟩, ⟨1, [(5, 0)]⟩]).2.Pairwise (dedup_ok 3) :=
  (c1_dedup_window_invariant 3 [⟨0, [(0, 0), (10, 0)]⟩, ⟨1, [(5, 0)]⟩] (by decide)).1

/-- C9: if process_unknown_faces runs while unknown_faces_buffer holds
fewer than BUFFER_SIZE = 3 crops, it performs no mutation at all: the
gallery, the identity counter and the buffer itself are unchanged. -/
theorem c9_small_buffer_no_mutation (toGray toBGR resize80 : Img → Img)
    (score : Img → Img → Rat) (st : AppState) (hlen : st.buffer.length < 3) :
    process_unknown_faces toGray toBGR resize80 score st = st := by
  unfold process_unknown_faces
  rw [if_pos hlen]

/-- Witness for C9 at a concrete one-crop buffer. -/
theorem c9_small_buffer_no_mutation_witness :
    process_unknown_faces id id id (fun _ _ => 0)
        ⟨[⟨40, 40, [7]⟩], [⟨80, 80, [1]⟩], ["Alice"], 4⟩
      = ⟨[⟨40, 40, [7]⟩], [⟨80, 80, [1]⟩], ["Alice"], 4⟩ :=
  c9_small_buffer_no_mutation id id id (fun _ _ => 0) _ (by decide)

/-- C4: for a detected face whose bounding box is below
MIN_RECOGNITION_SIZE = 100 in either dimension, the matcher returns
Unknown regardless of the gallery contents and the scores. -/
theorem c4_small_crop_unknown (score : Img → Img → Rat) (w h : Nat)
    (known_faces : List Img) (known_face_names : List String) (crop : Img) (thr : Rat)
    (hsmall : w < 100 ∨ h < 100) :
    recognize_face score w h known_faces known_face_names crop thr = "Unknown" := by
  unfold recognize_face
  rw [if_neg]
  rintro ⟨hw, hh, -⟩
  rcases hsmall with hs | hs
  · exact absurd hw (by omega)
  · exact absurd hh (by omega)

/-- Witness for C4: a 90x200 crop scoring 1 against the sole gallery entry
is still Unknown. -/
theorem c4_small_crop_unknown_witness :
    recognize_face (fun _ _ => 1) 90 200 [⟨80, 80, [1]⟩] ["Alice"] ⟨90, 200, [2]⟩ (65 / 100)
      = "Unknown" :=
  c4_small_crop_unknown (fun _ _ => 1) 90 200 [⟨80, 80, [1]⟩] ["Alice"] ⟨90, 200, [2]⟩
    (65 / 100) (Or.inl (by decide))

/-- C6 counterexample: with the queue full (5 frames), pushing frame 9
leaves the queue unchanged, so the newly produced frame is the one
dropped and the oldest frame 0 is retained, contradicting the claimed
drop-oldest-keep-newest behavior. -/
theorem c6_full_queue_drops_newest_cex :
    frame_queue_push 5 [0, 1, 2, 3, 4] 9 = [0, 1, 2, 3, 4]
    ∧ 9 ∉ frame_queue_push 5 [0, 1, 2, 3, 4] 9
    ∧ 0 ∈ frame_queue_push 5 [0, 1, 2, 3, 4] 9 := by
  refine ⟨rfl, ?_, ?_⟩ <;> decide

/-- C6 amended: the producer never blocks; with free space the frame is
appended at the back, but a full queue is left unchanged, discarding the
newly produced frame (the oldest frames are the ones retained); the
queue length never grows past the maximum of maxlen and its current
length. -/
theorem c6_queue_push_behavior (maxlen : Nat) (q : List Nat) (f : Nat) :
    (q.length < maxlen → frame_queue_push maxlen q f = q ++ [f])
    ∧ (maxlen ≤ q.length → frame_queue_push maxlen q f = q)
    ∧ (frame_queue_push maxlen q f).length ≤ max maxlen q.length := by
  refine ⟨fun hl => ?_, fun hl => ?_, ?_⟩
  · unfold frame_queue_push
    rw [if_pos hl]
  · unfold frame_queue_push
    rw [if_neg (not_lt.mpr hl)]
  · unfold frame_queue_push
    by_cases hl : q.length < maxlen
    · rw [if_pos hl]
      simp only [List.length_append, List.length_cons, List.length_nil]
      exact le_trans (by omega) (le_max_left maxlen q.length)
    · rw [if_neg hl]
      exact le_max_right maxlen q.length

/-- Witness for C6 amended behavior at concrete queues. -/
theorem c6_queue_push_behavior_witness :
    frame_queue_push 5 [0, 1] 7 = [0, 1] ++ [7]
    ∧ frame_queue_push 5 [0, 1, 2, 3, 4] 8 = [0, 1, 2, 3, 4] :=
  ⟨(c6_queue_push_behavior 5 [0, 1] 7).1 (by decide),
   (c6_queue_push_behavior 5 [0, 1, 2, 3, 4] 8).2.1 (by decide)⟩

/-- C7 counterexample: with frame 10 produced before frame 20, the
consumer renders 10 and leaves 20 queued for a later tick, so the frame
selected is not the latest available and older frames are not skipped. -/
theorem c7_renders_oldest_cex :
    (update_gui_poll [10, 20]).1 = some 10
    ∧ ([10, 20] : List Nat).getLast? = some 20
    ∧ (update_gui_poll [10, 20]).1 ≠ ([10, 20] : List Nat).getLast?
    ∧ (update_gui_poll [10, 20]).2 = [20] := by
  refine ⟨rfl, rfl, ?_, rfl⟩
  decide

/-- C7 amended: each consumer tick pops and renders the oldest unconsumed
frame (the queue head), leaving the rest queued, so successive ticks
render the frames exactly in production order (FIFO), never skipping. -/
theorem c7_fifo_rendering (q : List Nat) (n : Nat) (hn : q.length ≤ n) :
    (update_gui_poll q).1 = q.head?
    ∧ (update_gui_poll q).2 = q.tail
    ∧ drain_frames n q = q := by
  refine ⟨?_, ?_, drain_frames_all q n hn⟩
  · cases q <;> rfl
  · cases q <;> rfl

/-- Witness for C7 amended behavior at a concrete queue. -/
theorem c7_fifo_rendering_witness :
    (update_gui_poll [3, 4]).1 = ([3, 4] : List Nat).head?
    ∧ (update_gui_poll [3, 4]).2 = ([3, 4] : List Nat).tail
    ∧ drain_frames 2 [3, 4] = [3, 4] :=
  c7_fifo_rendering [3, 4] 2 (by decide)

/-- C3: for a crop meeting the minimum recognition size against a nonempty
gallery whose names do not include the literal Unknown, and any
nonnegative threshold (the source keeps MATCH_THRESHOLD in [0.5, 0.9]),
the matcher returns a gallery name exactly when some gallery score
strictly exceeds the threshold (equivalently, when the maximum does),
it returns a recorded gallery name in that case, and it returns Unknown
when every score is at most the threshold. -/
theorem c3_threshold_match_iff (score : Img → Img → Rat) (w h : Nat)
    (known_faces : List Img) (known_face_names : List String) (crop : Img) (thr : Rat)
    (hw : 100 ≤ w) (hh : 100 ≤ h) (hne : known_faces ≠ [])
    (hlen : known_faces.length = known_face_names.length)
    (hunk : "Unknown" ∉ known_face_names) (hthr : 0 ≤ thr) :
    (recognize_face score w h known_faces known_face_names crop thr ≠ "Unknown"
      ↔ ∃ f ∈ known_faces, thr < score crop f)
    ∧ ((∃ f ∈ known_faces, thr < score crop f) →
        recognize_face score w h known_faces known_face_names crop thr ∈ known_face_names)
    ∧ ((∀ f ∈ known_faces, score crop f ≤ thr) →
        recognize_face score w h known_faces known_face_names crop thr = "Unknown") := by
  have hguard : 100 ≤ w ∧ 100 ≤ h ∧ known_faces ≠ [] := ⟨hw, hh, hne⟩
  have hzip_exists :
      (∃ p ∈ known_faces.zip known_face_names, thr < score crop p.1)
        ↔ ∃ f ∈ known_faces, thr < score crop f := by
    constructor
    · rintro ⟨p, hp, hlt⟩
      exact ⟨p.1, (List.of_mem_zip hp).1, hlt⟩
    · rintro ⟨f, hf, hlt⟩
      have hmap : (known_faces.zip known_face_names).map Prod.fst = known_faces :=
        List.map_fst_zip known_faces known_face_names (le_of_eq hlen)
      rw [← hmap] at hf
      obtain ⟨p, hp, hpf⟩ := List.mem_map.mp hf
      exact ⟨p, hp, hpf ▸ hlt⟩
  have hb_iff :
      thr < (best_match score crop (known_faces.zip known_face_names)).1
        ↔ ∃ f ∈ known_faces, thr < score crop f := by
    unfold best_match
    rw [best_fold_fst_lt_iff]
    rw [← hzip_exists]
    constructor
    · rintro (h0 | hex)
      · exact absurd h0 (not_lt.mpr hthr)
      · exact hex
    · exact Or.inr
  unfold recognize_face
  rw [if_pos hguard]
  by_cases hbt : (best_match score crop (known_faces.zip known_face_names)).1 > thr
  · rw [if_pos hbt]
    have hmem : (best_match score crop (known_faces.zip known_face_names)).2
        ∈ known_face_names := by
      rcases best_fold_result score crop (known_faces.zip known_face_names)
          ((0 : Rat), "Unknown") with heq | hm
      · exfalso
        rw [show best_match score crop (known_faces.zip known_face_names)
              = (known_faces.zip known_face_names).foldl (match_step score crop)
                  ((0 : Rat), "Unknown") from rfl, heq] at hbt
        exact absurd hbt (not_lt.mpr hthr)
      · have hsnd : (known_faces.zip known_face_names).map Prod.snd = known_face_names :=
          List.map_snd_zip known_faces known_face_names (le_of_eq hlen.symm)
        rw [hsnd] at hm
        exact hm
    refine ⟨⟨fun _ => hb_iff.mp hbt, fun _ hcontra => hunk (hcontra ▸ hmem)⟩,
      fun _ => hmem, fun hall => ?_⟩
    obtain ⟨f, hf, hlt⟩ := hb_iff.mp hbt
    exact absurd (hall f hf) (not_le.mpr hlt)
  · rw [if_neg hbt]
    refine ⟨⟨fun hcontra => absurd rfl hcontra, fun hex => absurd (hb_iff.mpr hex) hbt⟩,
      fun hex => absurd (hb_iff.mpr hex) hbt, fun _ => rfl⟩

/-- Witness for C3: the spec scenario with the gallery holding only Alice
and the crop scoring 0.80 against her template: at threshold 0.65 the
crop is matched as Alice, at threshold 0.85 it is Unknown. -/
theorem c3_threshold_match_iff_witness :
    recognize_face (fun _ _ => mkRat 8 10) 120 120 [⟨80, 80, [1]⟩] ["Alice"]
        ⟨120, 120, [2]⟩ (mkRat 65 100) = "Alice"
    ∧ recognize_face (fun _ _ => mkRat 8 10) 120 120 [⟨80, 80, [1]⟩] ["Alice"]
        ⟨120, 120, [2]⟩ (mkRat 85 100) = "Unknown" := by
  constructor
  · have h := (c3_threshold_match_iff (fun _ _ => mkRat 8 10) 120 120 [⟨80, 80, [1]⟩]
      ["Alice"] ⟨120, 120, [2]⟩ (mkRat 65 100) (by decide) (by decide) (by decide) rfl
      (by decide) (by decide)).2.1 ⟨⟨80, 80, [1]⟩, List.mem_singleton.mpr rfl, by decide⟩
    exact List.mem_singleton.mp h
  · exact (c3_threshold_match_iff (fun _ _ => mkRat 8 10) 120 120 [⟨80, 80, [1]⟩]
      ["Alice"] ⟨120, 120, [2]⟩ (mkRat 85 100) (by decide) (by decide) (by decide) rfl
      (by decide) (by decide)).2.2 (fun f _ => by decide)

/-- C5 counterexample: five consecutive failed frame reads (each followed
by the immediate re-open of lines 797-804, which succeeds) leave the
session running with the error count back at 0, so the session does not
transition to stopped after max_camera_errors = 5 failed reads. -/
theorem c5_five_failed_reads_not_stopped :
    run_loop 5 ⟨true, true, 0⟩ (List.replicate 5 ⟨true, false, true⟩)
      = ⟨true, true, 0⟩
    ∧ (run_loop 5 ⟨true, true, 0⟩ (List.replicate 5 ⟨true, false, true⟩)).running = true := by
  refine ⟨by decide, by decide⟩

/-- C5 amended: the session stops only when camera_error_count exceeds
max_camera_errors = 5, which takes six consecutive failed camera
operations with no successful read or (re)open in between: with every
read, re-open and reconnect failing, the session is still running after
5 iterations, stops exactly at the 6th (running flag cleared, camera
released, count 6), and a stopped session is absorbing: no further
iteration changes it, so no further reads are attempted until an
explicit restart. -/
theorem c5_error_budget_stop :
    (run_loop 5 ⟨true, true, 0⟩ (List.replicate 5 ⟨false, false, false⟩)).running = true
    ∧ run_loop 5 ⟨true, true, 0⟩ (List.replicate 6 ⟨false, false, false⟩)
        = ⟨false, false, 6⟩
    ∧ (∀ (s : LoopState), s.running = false → ∀ l, run_loop 5 s l = s)
    ∧ (∀ (s : LoopState), stop_detection (stop_detection s) = stop_detection s) := by
  refine ⟨by decide, by decide, ?_, fun s => rfl⟩
  intro s hs l
  exact run_loop_stopped 5 s hs l

/-- Witness for C5 amended: absorbing stopped state at a concrete state
and input list. -/
theorem c5_error_budget_stop_witness :
    run_loop 5 ⟨false, false, 6⟩ [⟨true, true, true⟩, ⟨false, false, false⟩]
      = ⟨false, false, 6⟩ :=
  c5_error_budget_stop.2.2.1 ⟨false, false, 6⟩ (by decide)
    [⟨true, true, true⟩, ⟨false, false, false⟩]

/-- C10: a failed read whose immediate re-open succeeds resets
camera_error_count to 0 before the next read (line 804), and in every
run from a freshly started session in which each failed read is followed
by a successful re-open, the loop state returns to (running, open,
count 0) after every iteration of every prefix, so the error budget
never stops the session no matter how many reads fail. -/
theorem c10_reopen_resets_error_count :
    (∀ (s : LoopState) (i : IterIn), s.running = true → s.capOpen = true →
      s.errCount < 5 → i.readOk = false → i.reopenOk = true →
      loop_iter 5 s i = ⟨true, true, 0⟩)
    ∧ (∀ (l : List IterIn), (∀ i ∈ l, i.readOk = false → i.reopenOk = true) →
      ∀ n, run_loop 5 ⟨true, true, 0⟩ (l.take n) = ⟨true, true, 0⟩) := by
  constructor
  · intro s i hr hc he hread hro
    exact loop_iter_read_fail_reopen_ok s i hr hc he hread hro
  · intro l hg n
    exact run_loop_good_inputs (l.take n) (fun i hi => hg i (List.take_subset n l hi))

/-- C8 counterexample: the constant image [5, 5] is a valid grayscale
image, but its self-score is not 1: both the numerator and the
normalizing denominator vanish (zero pixel variance), so the quotient
is 0 under the division-by-zero convention, not the claimed 1.0 (in
floating point the same expression is 0/0). -/
theorem c8_constant_image_cex :
    ncc_score id [5, 5] [5, 5] = 0 ∧ ncc_score id [5, 5] [5, 5] ≠ 1 := by
  have hnum : ncc_num ([5, 5] : List Rat) [5, 5] = 0 := by
    rw [ncc_num_self]
    unfold ncc_den pix_mean
    norm_num
  have h0 : ncc_score id [5, 5] [5, 5] = 0 := by
    unfold ncc_score
    simp only [id_eq]
    rw [hnum]
    norm_num
  refine ⟨h0, ?_⟩
  rw [h0]
  norm_num

/-- C8 amended: the similarity score is symmetric for all images and all
resize normalizations, and the self-score is 1 for every image whose
normalized crop has nonzero pixel variance; a constant crop has zero
variance, its normalizer vanishes, and its self-score is not 1. -/
theorem c8_ncc_symm_and_self (resize : List Rat → List Rat) :
    (∀ a b, ncc_score resize a b = ncc_score resize b a)
    ∧ (∀ a, ncc_den (resize a) ≠ 0 → ncc_score resize a a = 1) := by
  constructor
  · intro a b
    unfold ncc_score
    rw [ncc_num_comm, mul_comm]
  · intro a hne
    unfold ncc_score
    rw [ncc_num_self]
    have hd0 : (0 : ℝ) ≤ ((ncc_den (resize a) : Rat) : ℝ) :=
      by exact_mod_cast ncc_den_nonneg (resize a)
    rw [Real.sqrt_mul_self hd0]
    exact div_self (by exact_mod_cast hne)

/-- Witness for C8: symmetry at two concrete images, and self-score 1 at
the two-pixel nonconstant image [0, 1]. -/
theorem c8_ncc_symm_and_self_witness :
    ncc_score id [0, 1] [2, 3] = ncc_score id [2, 3] [0, 1]
    ∧ ncc_den (id [0, 1]) ≠ 0
    ∧ ncc_score id [0, 1] [0, 1] = 1 := by
  have hden : ncc_den (id ([0, 1] : List Rat)) ≠ 0 :=
    two_pixel_ncc_den_ne_zero 0 1 (by decide)
  exact ⟨(c8_ncc_symm_and_self id).1 [0, 1] [2, 3], hden,
    (c8_ncc_symm_and_self id).2 [0, 1] hden⟩

/-- C2 (code bug evaluation): a 3-crop buffer in which the first two crops
are a matching pair (mutual score 0.9 above the clustering threshold
0.65) and the third is distinct (score 0.1 against both), with the
second crop of the pair having the larger original pixel area
(100x100 versus 50x50). The enrollment pass appends exactly one new
identity and empties the buffer, as claimed, but the enrolled template
derives from the FIRST-buffered, smaller member of the pair: the
largest-area selection of lines 1091-1099 runs after every member was
resized to 80x80 at line 1074, so all areas tie at 6400 and the strict
comparison keeps the first member, never the larger-area crop the spec
designates. -/
theorem c2_resized_area_tie_eval :
    c2_score (c2_resize (c2_gray c2_cropA)) (c2_resize (c2_gray c2_cropB)) > cluster_threshold
    ∧ c2_score (c2_resize (c2_gray c2_cropB)) (c2_resize (c2_gray c2_cropA)) > cluster_threshold
    ∧ ¬ c2_score (c2_resize (c2_gray c2_cropC)) (c2_resize (c2_gray c2_cropA)) > cluster_threshold
    ∧ ¬ c2_score (c2_resize (c2_gray c2_cropC)) (c2_resize (c2_gray c2_cropB)) > cluster_threshold
    ∧ c2_cropA.h * c2_cropA.w < c2_cropB.h * c2_cropB.w
    ∧ process_unknown_faces c2_gray c2_gray c2_resize c2_score
        ⟨[c2_cropA, c2_cropB, c2_cropC], [], [], 1⟩
      = ⟨[], [⟨80, 80, [1]⟩], ["Person_1"], 2⟩
    ∧ (⟨80, 80, [1]⟩ : Img) = c2_resize (c2_gray c2_cropA)
    ∧ (⟨80, 80, [1]⟩ : Img) ≠ c2_resize (c2_gray c2_cropB) := by
  decide

/-- Witness for C10 at a concrete state, iteration and run. -/
theorem c10_reopen_resets_error_count_witness :
    loop_iter 5 ⟨true, true, 1⟩ ⟨true, false, true⟩ = ⟨true, true, 0⟩
    ∧ run_loop 5 ⟨true, true, 0⟩
        ([⟨true, false, true⟩, ⟨true, true, true⟩, ⟨true, false, true⟩].take 3)
      = ⟨true, true, 0⟩ :=
  ⟨c10_reopen_resets_error_count.1 ⟨true, true, 1⟩ ⟨true, false, true⟩ rfl rfl
      (by decide) rfl rfl,
   c10_reopen_resets_error_count.2
      [⟨true, false, true⟩, ⟨true, true, true⟩, ⟨true, false, true⟩] (by decide) 3⟩

end FaceDet
